import Mathlib

/-!
Verification of the Mem3DG membrane-dynamics core.

This file gives a shallow embedding, over the real numbers, of the force
computation engine of `System` (src/src/pressure.cpp, src/src/regularization.cpp),
of the osmotic-pressure update and parameter checking of the solver
(src/src/solver/init.cpp, src/src/solver/parameters.cpp, embedded over the
rationals since only field arithmetic and control flow are involved), and of the
status/march state machines of the Euler and Velocity-Verlet integrators
(src/src/euler.cpp, src/src/solver/integrator/velocity_verlet.cpp,
src/include/mem3dg/solver/integrator/integrator.h), together with theorems
settling the testable properties claimed for them.

Floating-point `double` arithmetic is idealised as exact real (or rational)
arithmetic; the pcg32 random engine feeding `std::normal_distribution` is
idealised as a fixed stream `ℕ → ℝ` of draw outcomes consumed in order, with a
cursor that advances by one per draw.
-/

namespace Mem3DG

/-- Geometry-central `Vector3` (three doubles), idealised as `ℝ × ℝ × ℝ`.
Componentwise addition, subtraction and scalar multiplication come from the
product structure. -/
abbrev Vec3 : Type := ℝ × ℝ × ℝ

/-- Dot product `gc::dot` of two `Vector3`. -/
def vdot (a b : Vec3) : ℝ := a.1 * b.1 + a.2.1 * b.2.1 + a.2.2 * b.2.2

/-- Cross product `gc::cross` of two `Vector3`. -/
def vcross (a b : Vec3) : Vec3 :=
  (a.2.1 * b.2.2 - a.2.2 * b.2.1,
   a.2.2 * b.1 - a.1 * b.2.2,
   a.1 * b.2.1 - a.2.1 * b.1)

/-- `Vector3::normalize`: divide a vector by its Euclidean norm. -/
noncomputable def vnormalize (v : Vec3) : Vec3 :=
  (Real.sqrt (vdot v v))⁻¹ • v

/-- The parameter record `P` of the `System` in src/src/pressure.cpp
(bending modulus `Kb`, tension `Ksg`, osmotic `Kv`, Dirichlet `eta`,
regularization constants `Kse`, `Ksl`, `Kst`, DPD constants `gamma`, `sigma`,
external force `Kf` with `conc` and `height`, adsorption `epsilon`, protein
mobility `Bc`, spontaneous curvature magnitude `H0`, augmented-Lagrangian
multipliers `lambdaSG`, `lambdaV`, reduced volume `Vt`, ambient concentration
`cam`). -/
structure Params where
  Kb : ℝ
  Ksg : ℝ
  Kv : ℝ
  eta : ℝ
  Kse : ℝ
  Ksl : ℝ
  Kst : ℝ
  gamma : ℝ
  sigma : ℝ
  Kf : ℝ
  Bc : ℝ
  epsilon : ℝ
  H0 : ℝ
  conc : ℝ
  height : ℝ
  lambdaSG : ℝ
  lambdaV : ℝ
  Vt : ℝ
  cam : ℝ

/-- The read-only part of the `System` state consumed by the force routines of
src/src/pressure.cpp and src/src/regularization.cpp: the halfedge mesh topology
(`next`, `twin`, incidence maps, outgoing halfedges, boundary flags, the
canonical halfedge `edgeHe` of each edge, i.e. `Edge::halfedge()`), the cached
geometric quantities supplied by the geometry provider (`vpg`), the cached
curvature fields `H`, `H0` (here `H0v`), `K`, the operators `M_inv`, `L`, `D`,
hodge stars, the reference (target) quantities, the mode flags, and the
idealised random stream. None of these fields is written by a force
computation. -/
structure SysCore (nV nE nF nHE : ℕ) where
  P : Params
  /-- vertex mean curvature `H` -/
  H : Fin nV → ℝ
  /-- vertex spontaneous curvature field `H0` -/
  H0v : Fin nV → ℝ
  /-- vertex Gaussian curvature `K` -/
  K : Fin nV → ℝ
  proteinDensity : Fin nV → ℝ
  geodesicDistanceFromPtInd : Fin nV → ℝ
  /-- inverse lumped mass matrix `M_inv` -/
  Minv : Matrix (Fin nV) (Fin nV) ℝ
  /-- cotangent Laplacian `L` -/
  L : Matrix (Fin nV) (Fin nV) ℝ
  /-- vertex-edge distribution matrix `D` -/
  Dmat : Matrix (Fin nV) (Fin nE) ℝ
  hodge1 : Fin nE → ℝ
  hodge1Inverse : Fin nE → ℝ
  edgeDihedralAngles : Fin nE → ℝ
  edgeLengths : Fin nE → ℝ
  lineTension : Fin nE → ℝ
  targetLcr : Fin nE → ℝ
  targetEdgeLengths : Fin nE → ℝ
  faceNormals : Fin nF → Vec3
  faceAreas : Fin nF → ℝ
  targetFaceAreas : Fin nF → ℝ
  positions : Fin nV → Vec3
  vel : Fin nV → Vec3
  vertexNormals : Fin nV → Vec3
  next : Fin nHE → Fin nHE
  twin : Fin nHE → Fin nHE
  hvertex : Fin nHE → Fin nV
  hedge : Fin nHE → Fin nE
  hface : Fin nHE → Fin nF
  outgoing : Fin nV → List (Fin nHE)
  isBoundaryV : Fin nV → Bool
  edgeHe : Fin nE → Fin nHE
  theVertex : Fin nV
  hasBoundary : Bool
  isReducedVolume : Bool
  isProtein : Bool
  isEdgeFlip : Bool
  surfaceArea : ℝ
  targetSurfaceArea : ℝ
  volume : ℝ
  refVolume : ℝ
  /-- idealised outcomes of successive `normal_dist(rng)` draws -/
  stream : ℕ → ℝ

/-- The writable per-vertex force slots and global scalars of `System`
(`bendingPressure`, `capillaryPressure`, `lineTensionPressure`,
`externalPressure`, `regularizationForce`, `dampingForce`, `stochasticForce`,
`chemicalPotential`, `insidePressure`, `surfaceTension`). -/
structure Forces (nV : ℕ) where
  bendingPressure : Fin nV → Vec3
  capillaryPressure : Fin nV → Vec3
  lineTensionPressure : Fin nV → Vec3
  externalPressure : Fin nV → Vec3
  regularizationForce : Fin nV → Vec3
  dampingForce : Fin nV → Vec3
  stochasticForce : Fin nV → Vec3
  chemicalPotential : Fin nV → ℝ
  insidePressure : ℝ
  surfaceTension : ℝ

/-- The full mutable `System` state seen by the force routines: the read-only
core, the force slots, and the random-stream cursor (the internal state of the
`rng` engine, advanced by each draw). -/
structure System (nV nE nF nHE : ℕ) where
  core : SysCore nV nE nF nHE
  forces : Forces nV
  rngIndex : ℕ

/-- The per-edge endpoint pairs traversed by `for (gcs::Edge e : mesh->edges())`:
for each edge `e`, `he = e.halfedge()`, `v1 = he.vertex()`,
`v2 = he.next().vertex()`. -/
def SysCore.edgeList {nV nE nF nHE : ℕ} (c : SysCore nV nE nF nHE) :
    List (Fin nV × Fin nV) :=
  (List.finRange nE).map fun e =>
    (c.hvertex (c.edgeHe e), c.hvertex (c.next (c.edgeHe e)))

/-- `vecFromHalfedge` (mem3dg meshops, header not included under src): the
displacement vector along a halfedge, head position minus tail position. -/
def vecFromHalfedge {nV nE nF nHE : ℕ} (c : SysCore nV nE nF nHE)
    (he : Fin nHE) : Vec3 :=
  c.positions (c.hvertex (c.next he)) - c.positions (c.hvertex he)

/-- `System::computeBendingPressure` (src/src/pressure.cpp, retained
"non-optimized" version), as a function of the read-only core:
`lap_H = M_inv * L * (H - H0)`,
`scalerTerms = H∘H + H∘H0 - K`, `productTerms = 2 (scalerTerms ∘ (H - H0))`,
result `-Kb * rowwiseScaling(productTerms + lap_H, vertexNormals)`. -/
noncomputable def bendingField {nV nE nF nHE : ℕ} (c : SysCore nV nE nF nHE) :
    Fin nV → Vec3 :=
  let lap_H := c.Minv.mulVec (c.L.mulVec (c.H - c.H0v))
  let scalerTerms := fun v => c.H v * c.H v + c.H v * c.H0v v - c.K v
  let productTerms := fun v => 2 * (scalerTerms v * (c.H v - c.H0v v))
  fun v => (-c.P.Kb * (productTerms v + lap_H v)) • c.vertexNormals v

/-- The scalar `surfaceTension` set by `System::computeCapillaryPressure`:
`-Ksg` for a mesh with boundary (patch), otherwise
`-(Ksg (A - A_target)/A_target + lambdaSG)` (vesicle). -/
noncomputable def surfaceTensionOf {nV nE nF nHE : ℕ}
    (c : SysCore nV nE nF nHE) : ℝ :=
  if c.hasBoundary then -c.P.Ksg
  else -(c.P.Ksg * (c.surfaceArea - c.targetSurfaceArea) / c.targetSurfaceArea
        + c.P.lambdaSG)

/-- The per-vertex field set by `System::computeCapillaryPressure`:
`rowwiseScaling(surfaceTension * 2 * H, vertexNormals)`. -/
noncomputable def capillaryField {nV nE nF nHE : ℕ}
    (c : SysCore nV nE nF nHE) : Fin nV → Vec3 :=
  fun v => (surfaceTensionOf c * 2 * c.H v) • c.vertexNormals v

/-- The global scalar set by `System::computeInsidePressure`: `Kv` for a patch,
`-(Kv (V - V_ref Vt)/(V_ref Vt) + lambdaV)` in reduced-volume mode, otherwise
`Kv/V - Kv cam`. -/
noncomputable def insidePressureOf {nV nE nF nHE : ℕ}
    (c : SysCore nV nE nF nHE) : ℝ :=
  if c.hasBoundary then c.P.Kv
  else if c.isReducedVolume then
    -(c.P.Kv * (c.volume - c.refVolume * c.P.Vt) / (c.refVolume * c.P.Vt)
      + c.P.lambdaV)
  else c.P.Kv / c.volume - c.P.Kv * c.P.cam

/-- The per-vertex field set by `System::computeLineTensionPressure`:
normal curvature of dual edges `dihedral / (hodge1 * length)`, then
`-rowwiseScaling(M_inv * D * hodge1Inverse * (lineTension ∘ normalCurv),
vertexNormals)`. -/
noncomputable def lineTensionField {nV nE nF nHE : ℕ}
    (c : SysCore nV nE nF nHE) : Fin nV → Vec3 :=
  let normalCurv := fun e =>
    c.edgeDihedralAngles e / (c.hodge1 e * c.edgeLengths e)
  let w := c.Minv.mulVec
    (c.Dmat.mulVec fun e => c.hodge1Inverse e * (c.lineTension e * normalCurv e))
  fun v => -(w v • c.vertexNormals v)

/-- `gaussianDistribution` (mem3dg meshops, header not included under src),
modelled from the spec: a Gaussian profile of the given standard deviation
evaluated at the geodesic distance. -/
noncomputable def gaussianDistribution (x stdDev : ℝ) : ℝ :=
  (stdDev * Real.sqrt (2 * Real.pi))⁻¹ *
    Real.exp (-(x * x) / (2 * stdDev * stdDev))

/-- Eigen `maxCoeff` over a per-vertex vector, as a fold (the source only
evaluates it on nonempty vectors). -/
noncomputable def vecMaxCoeff {n : ℕ} (f : Fin n → ℝ) : ℝ :=
  ((List.finRange n).map f).foldr max 0

/-- The per-vertex field set by `System::computeExternalPressure` when
`Kf ≠ 0`: magnitude `Kf * gaussian(dist, maxCoeff(dist)/conc)`, applied along
the fixed direction `zDir = (0,0,-1)` scaled by the height feedback
`(positions[theVertex].z - height)`. -/
noncomputable def externalField {nV nE nF nHE : ℕ}
    (c : SysCore nV nE nF nHE) : Fin nV → Vec3 :=
  let stdDev := vecMaxCoeff c.geodesicDistanceFromPtInd / c.P.conc
  fun v =>
    (-(c.P.Kf * gaussianDistribution (c.geodesicDistanceFromPtInd v) stdDev) *
        ((c.positions c.theVertex).2.2 - c.P.height)) •
      (((0 : ℝ), (0 : ℝ), (-1 : ℝ)) : Vec3)

/-- The per-vertex scalar set by `System::computeChemicalPotential`:
`epsilon - (2 Kb (H - H0)) ∘ dH0dphi` with
`dH0dphi = 2 P.H0 φ / (1 + φ²)²`. -/
noncomputable def chemicalPotentialField {nV nE nF nHE : ℕ}
    (c : SysCore nV nE nF nHE) : Fin nV → ℝ :=
  fun v =>
    let phi := c.proteinDensity v
    let dH0dphi := 2 * c.P.H0 * phi / ((1 + phi * phi) * (1 + phi * phi))
    c.P.epsilon - 2 * c.P.Kb * (c.H v - c.H0v v) * dH0dphi

/-- `System::computeLengthCrossRatio` (src/src/regularization.cpp) of one
edge: with `h = e.halfedge()`, `lj = h.next().edge()`,
`ki = h.twin().next().edge()`, `il = h.next().next().edge()`,
`jk = h.twin().next().next().edge()`, the ratio
`len(il) len(jk) / len(ki) / len(lj)`. -/
noncomputable def lengthCrossRatio {nV nE nF nHE : ℕ} (c : SysCore nV nE nF nHE)
    (e : Fin nE) : ℝ :=
  let h := c.edgeHe e
  let lj := c.hedge (c.next h)
  let ki := c.hedge (c.next (c.twin h))
  let il := c.hedge (c.next (c.next h))
  let jk := c.hedge (c.next (c.next (c.twin h)))
  c.edgeLengths il * c.edgeLengths jk / c.edgeLengths ki / c.edgeLengths lj

/-- Conformal-regularization (length-cross-ratio spring) contribution of one
outgoing halfedge in `System::computeRegularizationForce`. -/
noncomputable def kstTerm {nV nE nF nHE : ℕ} (c : SysCore nV nE nF nHE)
    (he : Fin nHE) : Vec3 :=
  let jl := c.next he
  let li := c.next jl
  let ik := c.next (c.twin he)
  let kj := c.next ik
  let grad_li := vnormalize (vecFromHalfedge c li)
  let grad_ik := vnormalize (vecFromHalfedge c (c.twin ik))
  (-c.P.Kst * (lengthCrossRatio c (c.hedge he) - c.targetLcr (c.hedge he)) /
        c.targetLcr (c.hedge he) *
      (c.edgeLengths (c.hedge kj) / c.edgeLengths (c.hedge jl)) /
      c.edgeLengths (c.hedge ik) / c.edgeLengths (c.hedge ik)) •
    (c.edgeLengths (c.hedge ik) • grad_li - c.edgeLengths (c.hedge li) • grad_ik)

/-- Local-area-regularization (face-area spring) contribution of one outgoing
halfedge in `System::computeRegularizationForce`. -/
noncomputable def kslTerm {nV nE nF nHE : ℕ} (c : SysCore nV nE nF nHE)
    (he : Fin nHE) : Vec3 :=
  let base_he := c.next he
  let base_vec := vecFromHalfedge c base_he
  let localAreaGradient := -vcross base_vec (c.faceNormals (c.hface he))
  if c.isEdgeFlip then
    (-c.P.Ksl * c.faceAreas (c.hface base_he)) • localAreaGradient
  else
    (-c.P.Ksl *
        (c.faceAreas (c.hface base_he) - c.targetFaceAreas (c.hface base_he))) •
      localAreaGradient

/-- Local-edge-regularization (edge-length spring) contribution of one outgoing
halfedge in `System::computeRegularizationForce`. -/
noncomputable def kseTerm {nV nE nF nHE : ℕ} (c : SysCore nV nE nF nHE)
    (he : Fin nHE) : Vec3 :=
  let edgeGradient := -vnormalize (vecFromHalfedge c he)
  if c.isEdgeFlip then
    (-c.P.Kse * c.edgeLengths (c.hedge he)) • edgeGradient
  else
    (-c.P.Kse *
        (c.edgeLengths (c.hedge he) - c.targetEdgeLengths (c.hedge he))) •
      edgeGradient

/-- Total spring contribution accumulated for one outgoing halfedge: each of
the three terms is added only when its coefficient is nonzero, exactly as the
three guarded blocks of the loop body. -/
noncomputable def regHEContrib {nV nE nF nHE : ℕ} (c : SysCore nV nE nF nHE)
    (he : Fin nHE) : Vec3 :=
  (if c.P.Kst ≠ 0 then kstTerm c he else 0) +
    (if c.P.Ksl ≠ 0 then kslTerm c he else 0) +
    (if c.P.Kse ≠ 0 then kseTerm c he else 0)

/-- The accumulation loop of `System::computeRegularizationForce`: starting
from the incoming `regularizationForce` slot, every non-boundary vertex adds
the spring contribution of each of its outgoing halfedges; boundary vertices
are skipped. -/
noncomputable def regAccum {nV nE nF nHE : ℕ} (c : SysCore nV nE nF nHE)
    (f0 : Fin nV → Vec3) : Fin nV → Vec3 :=
  fun v =>
    if c.isBoundaryV v then f0 v
    else f0 v + ((c.outgoing v).map (regHEContrib c)).sum

/-- Result of `System::computeRegularizationForce`: the accumulated force with
its component along the vertex normal removed
(`f -= rowwiseScaling(rowwiseDotProduct(f, n), n)`). -/
noncomputable def regForceResult {nV nE nF nHE : ℕ} (c : SysCore nV nE nF nHE)
    (f0 : Fin nV → Vec3) : Fin nV → Vec3 :=
  fun v =>
    regAccum c f0 v - vdot (regAccum c f0 v) (c.vertexNormals v) •
      c.vertexNormals v

/-- Accumulator of the DPD loop: the two force slots being filled and the
random-stream cursor. -/
structure DPDAcc (nV : ℕ) where
  damping : Fin nV → Vec3
  stochastic : Fin nV → Vec3
  k : ℕ

/-- Damping update of one DPD edge iteration (guarded by `gamma != 0`):
`df = gamma (dot(dVel12, dPos12_n) dPos12_n)`, subtracted from `v1` and added
to `v2`. -/
noncomputable def dampStep {nV nE nF nHE : ℕ} (c : SysCore nV nE nF nHE)
    (d : Fin nV → Vec3) (e : Fin nV × Fin nV) : Fin nV → Vec3 :=
  if c.P.gamma ≠ 0 then
    let dVel12 := c.vel e.1 - c.vel e.2
    let dPos12_n := vnormalize (c.positions e.1 - c.positions e.2)
    let df := c.P.gamma • (vdot dVel12 dPos12_n • dPos12_n)
    let d1 := Function.update d e.1 (d e.1 - df)
    Function.update d1 e.2 (d1 e.2 + df)
  else d

/-- Stochastic update of one DPD edge iteration (guarded by `sigma != 0`):
a fresh draw `noise` from the stream at cursor `k`, added along the edge
direction to `v1` and subtracted from `v2`. -/
noncomputable def stochStep {nV nE nF nHE : ℕ} (c : SysCore nV nE nF nHE)
    (st : Fin nV → Vec3) (k : ℕ) (e : Fin nV × Fin nV) : Fin nV → Vec3 :=
  if c.P.sigma ≠ 0 then
    let dPos12_n := vnormalize (c.positions e.1 - c.positions e.2)
    let noise := c.stream k
    let t1 := Function.update st e.1 (st e.1 + noise • dPos12_n)
    Function.update t1 e.2 (t1 e.2 - noise • dPos12_n)
  else st

/-- Body of the edge loop of `System::computeDPDForces`: damping update, then
stochastic update with a fresh draw (the cursor advances only when a draw is
made, i.e. when `sigma != 0`). -/
noncomputable def dpdEdgeStep {nV nE nF nHE : ℕ} (c : SysCore nV nE nF nHE)
    (a : DPDAcc nV) (e : Fin nV × Fin nV) : DPDAcc nV :=
  { damping := dampStep c a.damping e
    stochastic := stochStep c a.stochastic a.k e
    k := a.k + if c.P.sigma ≠ 0 then 1 else 0 }

/-- The DPD loop of `System::computeDPDForces`: both slots are reset to zero,
then every edge is processed in order. -/
noncomputable def dpdAccOf {nV nE nF nHE : ℕ} (c : SysCore nV nE nF nHE)
    (k0 : ℕ) : DPDAcc nV :=
  c.edgeList.foldl (dpdEdgeStep c) ⟨fun _ => 0, fun _ => 0, k0⟩

/-- `System::computeBendingPressure`: writes the `bendingPressure` slot. -/
noncomputable def computeBendingPressure {nV nE nF nHE : ℕ}
    (s : System nV nE nF nHE) : System nV nE nF nHE :=
  { s with forces.bendingPressure := bendingField s.core }

/-- `System::computeCapillaryPressure`: writes `surfaceTension` and the
`capillaryPressure` slot. -/
noncomputable def computeCapillaryPressure {nV nE nF nHE : ℕ}
    (s : System nV nE nF nHE) : System nV nE nF nHE :=
  { s with
    forces.surfaceTension := surfaceTensionOf s.core
    forces.capillaryPressure := capillaryField s.core }

/-- `System::computeInsidePressure`: writes the global `insidePressure`. -/
noncomputable def computeInsidePressure {nV nE nF nHE : ℕ}
    (s : System nV nE nF nHE) : System nV nE nF nHE :=
  { s with forces.insidePressure := insidePressureOf s.core }

/-- `System::computeLineTensionPressure`: writes the `lineTensionPressure`
slot. -/
noncomputable def computeLineTensionPressure {nV nE nF nHE : ℕ}
    (s : System nV nE nF nHE) : System nV nE nF nHE :=
  { s with forces.lineTensionPressure := lineTensionField s.core }

/-- `System::computeExternalPressure`: writes the `externalPressure` slot when
`Kf ≠ 0`, otherwise leaves the state untouched. -/
noncomputable def computeExternalPressure {nV nE nF nHE : ℕ}
    (s : System nV nE nF nHE) : System nV nE nF nHE :=
  if s.core.P.Kf ≠ 0 then
    { s with forces.externalPressure := externalField s.core }
  else s

/-- `System::computeChemicalPotential`: writes the `chemicalPotential` slot. -/
noncomputable def computeChemicalPotential {nV nE nF nHE : ℕ}
    (s : System nV nE nF nHE) : System nV nE nF nHE :=
  { s with forces.chemicalPotential := chemicalPotentialField s.core }

/-- `System::computeRegularizationForce` (alias `getRegularizationForce` at its
call site in `computeAllForces`): accumulates the spring forces into the
`regularizationForce` slot, then removes the normal component. -/
noncomputable def computeRegularizationForce {nV nE nF nHE : ℕ}
    (s : System nV nE nF nHE) : System nV nE nF nHE :=
  { s with
    forces.regularizationForce :=
      regForceResult s.core s.forces.regularizationForce }

/-- `System::computeDPDForces`: resets both DPD slots to zero, runs the edge
loop, stores the resulting damping and stochastic forces and the advanced
random-stream cursor. -/
noncomputable def computeDPDForces {nV nE nF nHE : ℕ}
    (s : System nV nE nF nHE) : System nV nE nF nHE :=
  let a := dpdAccOf s.core s.rngIndex
  { s with
    forces.dampingForce := a.damping
    forces.stochasticForce := a.stochastic
    rngIndex := a.k }

/-- The slot-zeroing prologue of `System::computeAllForces`: every per-vertex
force slot, the chemical potential and the global `insidePressure` are reset;
`surfaceTension` is not in the zeroed list and is kept. -/
def zeroForces {nV : ℕ} (f : Forces nV) : Forces nV :=
  { bendingPressure := fun _ => 0
    capillaryPressure := fun _ => 0
    lineTensionPressure := fun _ => 0
    externalPressure := fun _ => 0
    regularizationForce := fun _ => 0
    dampingForce := fun _ => 0
    stochasticForce := fun _ => 0
    chemicalPotential := fun _ => 0
    insidePressure := 0
    surfaceTension := f.surfaceTension }

/-- `System::computeAllForces` (src/src/pressure.cpp): zero all slots, then
recompute exactly the terms whose coefficients (or mode flags) are active, in
source order. -/
noncomputable def computeAllForces {nV nE nF nHE : ℕ}
    (s : System nV nE nF nHE) : System nV nE nF nHE :=
  let s0 : System nV nE nF nHE := { s with forces := zeroForces s.forces }
  let s1 := if s.core.P.Kb ≠ 0 then computeBendingPressure s0 else s0
  let s2 := if s.core.P.Kv ≠ 0 then computeInsidePressure s1 else s1
  let s3 := if s.core.P.Ksg ≠ 0 then computeCapillaryPressure s2 else s2
  let s4 := if s.core.P.eta ≠ 0 then computeLineTensionPressure s3 else s3
  let s5 := if s.core.P.Kse ≠ 0 ∨ s.core.P.Ksl ≠ 0 ∨ s.core.P.Kst ≠ 0 then
      computeRegularizationForce s4
    else s4
  let s6 := if s.core.P.gamma ≠ 0 ∨ s.core.P.sigma ≠ 0 then
      computeDPDForces s5
    else s5
  let s7 := if s.core.isProtein then computeChemicalPotential s6 else s6
  if s.core.P.Kf ≠ 0 then computeExternalPressure s7 else s7

@[simp]
theorem computeBendingPressure_core {nV nE nF nHE : ℕ}
    (s : System nV nE nF nHE) : (computeBendingPressure s).core = s.core := rfl

@[simp]
theorem computeBendingPressure_rngIndex {nV nE nF nHE : ℕ}
    (s : System nV nE nF nHE) :
    (computeBendingPressure s).rngIndex = s.rngIndex := rfl

@[simp]
theorem computeBendingPressure_forces {nV nE nF nHE : ℕ}
    (s : System nV nE nF nHE) :
    (computeBendingPressure s).forces =
      { s.forces with bendingPressure := bendingField s.core } := rfl

@[simp]
theorem computeCapillaryPressure_core {nV nE nF nHE : ℕ}
    (s : System nV nE nF nHE) : (computeCapillaryPressure s).core = s.core := rfl

@[simp]
theorem computeCapillaryPressure_rngIndex {nV nE nF nHE : ℕ}
    (s : System nV nE nF nHE) :
    (computeCapillaryPressure s).rngIndex = s.rngIndex := rfl

@[simp]
theorem computeCapillaryPressure_forces {nV nE nF nHE : ℕ}
    (s : System nV nE nF nHE) :
    (computeCapillaryPressure s).forces =
      { s.forces with
        surfaceTension := surfaceTensionOf s.core
        capillaryPressure := capillaryField s.core } := rfl

@[simp]
theorem computeInsidePressure_core {nV nE nF nHE : ℕ}
    (s : System nV nE nF nHE) : (computeInsidePressure s).core = s.core := rfl

@[simp]
theorem computeInsidePressure_rngIndex {nV nE nF nHE : ℕ}
    (s : System nV nE nF nHE) :
    (computeInsidePressure s).rngIndex = s.rngIndex := rfl

@[simp]
theorem computeInsidePressure_forces {nV nE nF nHE : ℕ}
    (s : System nV nE nF nHE) :
    (computeInsidePressure s).forces =
      { s.forces with insidePressure := insidePressureOf s.core } := rfl

@[simp]
theorem computeLineTensionPressure_core {nV nE nF nHE : ℕ}
    (s : System nV nE nF nHE) :
    (computeLineTensionPressure s).core = s.core := rfl

@[simp]
theorem computeLineTensionPressure_rngIndex {nV nE nF nHE : ℕ}
    (s : System nV nE nF nHE) :
    (computeLineTensionPressure s).rngIndex = s.rngIndex := rfl

@[simp]
theorem computeLineTensionPressure_forces {nV nE nF nHE : ℕ}
    (s : System nV nE nF nHE) :
    (computeLineTensionPressure s).forces =
      { s.forces with lineTensionPressure := lineTensionField s.core } := rfl

@[simp]
theorem computeExternalPressure_core {nV nE nF nHE : ℕ}
    (s : System nV nE nF nHE) : (computeExternalPressure s).core = s.core := by
  unfold computeExternalPressure
  split <;> rfl

@[simp]
theorem computeExternalPressure_rngIndex {nV nE nF nHE : ℕ}
    (s : System nV nE nF nHE) :
    (computeExternalPressure s).rngIndex = s.rngIndex := by
  unfold computeExternalPressure
  split <;> rfl

theorem computeExternalPressure_forces {nV nE nF nHE : ℕ}
    (s : System nV nE nF nHE) :
    (computeExternalPressure s).forces =
      if s.core.P.Kf ≠ 0 then
        { s.forces with externalPressure := externalField s.core }
      else s.forces := by
  unfold computeExternalPressure
  split <;> rfl

@[simp]
theorem computeChemicalPotential_core {nV nE nF nHE : ℕ}
    (s : System nV nE nF nHE) :
    (computeChemicalPotential s).core = s.core := rfl

@[simp]
theorem computeChemicalPotential_rngIndex {nV nE nF nHE : ℕ}
    (s : System nV nE nF nHE) :
    (computeChemicalPotential s).rngIndex = s.rngIndex := rfl

@[simp]
theorem computeChemicalPotential_forces {nV nE nF nHE : ℕ}
    (s : System nV nE nF nHE) :
    (computeChemicalPotential s).forces =
      { s.forces with chemicalPotential := chemicalPotentialField s.core } := rfl

@[simp]
theorem computeRegularizationForce_core {nV nE nF nHE : ℕ}
    (s : System nV nE nF nHE) :
    (computeRegularizationForce s).core = s.core := rfl

@[simp]
theorem computeRegularizationForce_rngIndex {nV nE nF nHE : ℕ}
    (s : System nV nE nF nHE) :
    (computeRegularizationForce s).rngIndex = s.rngIndex := rfl

@[simp]
theorem computeRegularizationForce_forces {nV nE nF nHE : ℕ}
    (s : System nV nE nF nHE) :
    (computeRegularizationForce s).forces =
      { s.forces with
        regularizationForce :=
          regForceResult s.core s.forces.regularizationForce } := rfl

@[simp]
theorem computeDPDForces_core {nV nE nF nHE : ℕ}
    (s : System nV nE nF nHE) : (computeDPDForces s).core = s.core := rfl

@[simp]
theorem computeDPDForces_rngIndex {nV nE nF nHE : ℕ}
    (s : System nV nE nF nHE) :
    (computeDPDForces s).rngIndex = (dpdAccOf s.core s.rngIndex).k := rfl

@[simp]
theorem computeDPDForces_forces {nV nE nF nHE : ℕ}
    (s : System nV nE nF nHE) :
    (computeDPDForces s).forces =
      { s.forces with
        dampingForce := (dpdAccOf s.core s.rngIndex).damping
        stochasticForce := (dpdAccOf s.core s.rngIndex).stochastic } := rfl

/-- The aggregate evaluation never alters the read-only core state. -/
theorem computeAllForces_core {nV nE nF nHE : ℕ}
    (s : System nV nE nF nHE) : (computeAllForces s).core = s.core := by
  simp only [computeAllForces, apply_ite System.core, computeBendingPressure_core,
    computeInsidePressure_core, computeCapillaryPressure_core,
    computeLineTensionPressure_core, computeRegularizationForce_core,
    computeDPDForces_core, computeChemicalPotential_core,
    computeExternalPressure_core, ite_self]

/-- After aggregate evaluation the bending slot holds the bending field iff
`Kb` is active, else the zero written by the prologue. -/
theorem computeAllForces_bendingPressure {nV nE nF nHE : ℕ}
    (s : System nV nE nF nHE) :
    (computeAllForces s).forces.bendingPressure =
      if s.core.P.Kb ≠ 0 then bendingField s.core else fun _ => 0 := by
  simp only [computeAllForces,
    apply_ite (fun t : System nV nE nF nHE => t.forces.bendingPressure),
    computeBendingPressure_forces, computeInsidePressure_forces,
    computeCapillaryPressure_forces, computeLineTensionPressure_forces,
    computeRegularizationForce_forces, computeDPDForces_forces,
    computeChemicalPotential_forces, computeExternalPressure_forces,
    apply_ite (fun f : Forces nV => f.bendingPressure),
    computeBendingPressure_core, zeroForces, ite_self]

/-- After aggregate evaluation the global inside pressure is set iff `Kv` is
active, else the zero written by the prologue. -/
theorem computeAllForces_insidePressure {nV nE nF nHE : ℕ}
    (s : System nV nE nF nHE) :
    (computeAllForces s).forces.insidePressure =
      if s.core.P.Kv ≠ 0 then insidePressureOf s.core else 0 := by
  simp only [computeAllForces,
    apply_ite (fun t : System nV nE nF nHE => t.forces.insidePressure),
    apply_ite (fun t : System nV nE nF nHE => t.core),
    computeBendingPressure_core, computeInsidePressure_core,
    computeCapillaryPressure_core, computeLineTensionPressure_core,
    computeBendingPressure_forces, computeInsidePressure_forces,
    computeCapillaryPressure_forces, computeLineTensionPressure_forces,
    computeRegularizationForce_forces, computeDPDForces_forces,
    computeChemicalPotential_forces, computeExternalPressure_forces,
    apply_ite (fun f : Forces nV => f.insidePressure),
    zeroForces, ite_self]

/-- After aggregate evaluation the capillary slot holds the capillary field iff
`Ksg` is active, else the zero written by the prologue. -/
theorem computeAllForces_capillaryPressure {nV nE nF nHE : ℕ}
    (s : System nV nE nF nHE) :
    (computeAllForces s).forces.capillaryPressure =
      if s.core.P.Ksg ≠ 0 then capillaryField s.core else fun _ => 0 := by
  simp only [computeAllForces,
    apply_ite (fun t : System nV nE nF nHE => t.forces.capillaryPressure),
    apply_ite (fun t : System nV nE nF nHE => t.core),
    computeBendingPressure_core, computeInsidePressure_core,
    computeCapillaryPressure_core, computeLineTensionPressure_core,
    computeBendingPressure_forces, computeInsidePressure_forces,
    computeCapillaryPressure_forces, computeLineTensionPressure_forces,
    computeRegularizationForce_forces, computeDPDForces_forces,
    computeChemicalPotential_forces, computeExternalPressure_forces,
    apply_ite (fun f : Forces nV => f.capillaryPressure),
    zeroForces, ite_self]

/-- After aggregate evaluation the line-tension slot holds the line-tension
field iff `eta` is active, else the zero written by the prologue. -/
theorem computeAllForces_lineTensionPressure {nV nE nF nHE : ℕ}
    (s : System nV nE nF nHE) :
    (computeAllForces s).forces.lineTensionPressure =
      if s.core.P.eta ≠ 0 then lineTensionField s.core else fun _ => 0 := by
  simp only [computeAllForces,
    apply_ite (fun t : System nV nE nF nHE => t.forces.lineTensionPressure),
    apply_ite (fun t : System nV nE nF nHE => t.core),
    computeBendingPressure_core, computeInsidePressure_core,
    computeCapillaryPressure_core, computeLineTensionPressure_core,
    computeBendingPressure_forces, computeInsidePressure_forces,
    computeCapillaryPressure_forces, computeLineTensionPressure_forces,
    computeRegularizationForce_forces, computeDPDForces_forces,
    computeChemicalPotential_forces, computeExternalPressure_forces,
    apply_ite (fun f : Forces nV => f.lineTensionPressure),
    zeroForces, ite_self]

/-- After aggregate evaluation the regularization slot holds the projected
spring force (accumulated onto the freshly zeroed slot) iff one of `Kse`,
`Ksl`, `Kst` is active. -/
theorem computeAllForces_regularizationForce {nV nE nF nHE : ℕ}
    (s : System nV nE nF nHE) :
    (computeAllForces s).forces.regularizationForce =
      if s.core.P.Kse ≠ 0 ∨ s.core.P.Ksl ≠ 0 ∨ s.core.P.Kst ≠ 0 then
        regForceResult s.core (fun _ => 0)
      else fun _ => 0 := by
  simp only [computeAllForces,
    apply_ite (fun t : System nV nE nF nHE => t.forces.regularizationForce),
    apply_ite (fun t : System nV nE nF nHE => t.core),
    computeBendingPressure_forces, computeInsidePressure_forces,
    computeCapillaryPressure_forces, computeLineTensionPressure_forces,
    computeRegularizationForce_forces, computeDPDForces_forces,
    computeChemicalPotential_forces, computeExternalPressure_forces,
    computeBendingPressure_core, computeInsidePressure_core,
    computeCapillaryPressure_core, computeLineTensionPressure_core,
    apply_ite (fun f : Forces nV => f.regularizationForce),
    zeroForces, ite_self]

/-- After aggregate evaluation the damping slot holds the DPD damping result
iff one of `gamma`, `sigma` is active. -/
theorem computeAllForces_dampingForce {nV nE nF nHE : ℕ}
    (s : System nV nE nF nHE) :
    (computeAllForces s).forces.dampingForce =
      if s.core.P.gamma ≠ 0 ∨ s.core.P.sigma ≠ 0 then
        (dpdAccOf s.core s.rngIndex).damping
      else fun _ => 0 := by
  simp only [computeAllForces,
    apply_ite (fun t : System nV nE nF nHE => t.forces.dampingForce),
    apply_ite (fun t : System nV nE nF nHE => t.core),
    apply_ite (fun t : System nV nE nF nHE => t.rngIndex),
    computeBendingPressure_forces, computeInsidePressure_forces,
    computeCapillaryPressure_forces, computeLineTensionPressure_forces,
    computeRegularizationForce_forces, computeDPDForces_forces,
    computeChemicalPotential_forces, computeExternalPressure_forces,
    computeBendingPressure_core, computeInsidePressure_core,
    computeCapillaryPressure_core, computeLineTensionPressure_core,
    computeRegularizationForce_core, computeBendingPressure_rngIndex,
    computeInsidePressure_rngIndex, computeCapillaryPressure_rngIndex,
    computeLineTensionPressure_rngIndex, computeRegularizationForce_rngIndex,
    apply_ite (fun f : Forces nV => f.dampingForce),
    zeroForces, ite_self]

/-- After aggregate evaluation the stochastic slot holds the DPD stochastic
result iff one of `gamma`, `sigma` is active. -/
theorem computeAllForces_stochasticForce {nV nE nF nHE : ℕ}
    (s : System nV nE nF nHE) :
    (computeAllForces s).forces.stochasticForce =
      if s.core.P.gamma ≠ 0 ∨ s.core.P.sigma ≠ 0 then
        (dpdAccOf s.core s.rngIndex).stochastic
      else fun _ => 0 := by
  simp only [computeAllForces,
    apply_ite (fun t : System nV nE nF nHE => t.forces.stochasticForce),
    apply_ite (fun t : System nV nE nF nHE => t.core),
    apply_ite (fun t : System nV nE nF nHE => t.rngIndex),
    computeBendingPressure_forces, computeInsidePressure_forces,
    computeCapillaryPressure_forces, computeLineTensionPressure_forces,
    computeRegularizationForce_forces, computeDPDForces_forces,
    computeChemicalPotential_forces, computeExternalPressure_forces,
    computeBendingPressure_core, computeInsidePressure_core,
    computeCapillaryPressure_core, computeLineTensionPressure_core,
    computeRegularizationForce_core, computeBendingPressure_rngIndex,
    computeInsidePressure_rngIndex, computeCapillaryPressure_rngIndex,
    computeLineTensionPressure_rngIndex, computeRegularizationForce_rngIndex,
    apply_ite (fun f : Forces nV => f.stochasticForce),
    zeroForces, ite_self]

/-- After aggregate evaluation the chemical potential holds the protein field
iff protein mode is on, else the zero written by the prologue. -/
theorem computeAllForces_chemicalPotential {nV nE nF nHE : ℕ}
    (s : System nV nE nF nHE) :
    (computeAllForces s).forces.chemicalPotential =
      if s.core.isProtein then chemicalPotentialField s.core
      else fun _ => 0 := by
  simp only [computeAllForces,
    apply_ite (fun t : System nV nE nF nHE => t.forces.chemicalPotential),
    apply_ite (fun t : System nV nE nF nHE => t.core),
    computeBendingPressure_forces, computeInsidePressure_forces,
    computeCapillaryPressure_forces, computeLineTensionPressure_forces,
    computeRegularizationForce_forces, computeDPDForces_forces,
    computeChemicalPotential_forces, computeExternalPressure_forces,
    computeBendingPressure_core, computeInsidePressure_core,
    computeCapillaryPressure_core, computeLineTensionPressure_core,
    computeRegularizationForce_core, computeDPDForces_core,
    apply_ite (fun f : Forces nV => f.chemicalPotential),
    zeroForces, ite_self]

/-- After aggregate evaluation the external slot holds the external field iff
`Kf` is active, else the zero written by the prologue. -/
theorem computeAllForces_externalPressure {nV nE nF nHE : ℕ}
    (s : System nV nE nF nHE) :
    (computeAllForces s).forces.externalPressure =
      if s.core.P.Kf ≠ 0 then externalField s.core else fun _ => 0 := by
  simp only [computeAllForces,
    apply_ite (fun t : System nV nE nF nHE => t.forces.externalPressure),
    apply_ite (fun t : System nV nE nF nHE => t.core),
    computeBendingPressure_forces, computeInsidePressure_forces,
    computeCapillaryPressure_forces, computeLineTensionPressure_forces,
    computeRegularizationForce_forces, computeDPDForces_forces,
    computeChemicalPotential_forces, computeExternalPressure_forces,
    computeBendingPressure_core, computeInsidePressure_core,
    computeCapillaryPressure_core, computeLineTensionPressure_core,
    computeRegularizationForce_core, computeDPDForces_core,
    computeChemicalPotential_core,
    apply_ite (fun f : Forces nV => f.externalPressure),
    zeroForces, ite_self]
  split_ifs <;> rfl

/-- After aggregate evaluation the random-stream cursor has advanced exactly
when the DPD loop ran. -/
theorem computeAllForces_rngIndex {nV nE nF nHE : ℕ}
    (s : System nV nE nF nHE) :
    (computeAllForces s).rngIndex =
      if s.core.P.gamma ≠ 0 ∨ s.core.P.sigma ≠ 0 then
        (dpdAccOf s.core s.rngIndex).k
      else s.rngIndex := by
  simp only [computeAllForces,
    apply_ite (fun t : System nV nE nF nHE => t.rngIndex),
    apply_ite (fun t : System nV nE nF nHE => t.core),
    computeBendingPressure_core, computeInsidePressure_core,
    computeCapillaryPressure_core, computeLineTensionPressure_core,
    computeRegularizationForce_core, computeBendingPressure_rngIndex,
    computeInsidePressure_rngIndex, computeCapillaryPressure_rngIndex,
    computeLineTensionPressure_rngIndex, computeRegularizationForce_rngIndex,
    computeDPDForces_rngIndex, computeChemicalPotential_rngIndex,
    computeExternalPressure_rngIndex, ite_self]

/-- The damping component of the DPD loop does not depend on the stochastic
slot or on the random-stream cursor of the accumulator. -/
theorem foldl_dpd_damping {nV nE nF nHE : ℕ} (c : SysCore nV nE nF nHE) :
    ∀ (es : List (Fin nV × Fin nV)) (d st1 st2 : Fin nV → Vec3) (k1 k2 : ℕ),
      (es.foldl (dpdEdgeStep c) ⟨d, st1, k1⟩).damping =
        (es.foldl (dpdEdgeStep c) ⟨d, st2, k2⟩).damping := by
  intro es
  induction es with
  | nil => intro d st1 st2 k1 k2; rfl
  | cons e es ih =>
    intro d st1 st2 k1 k2
    simp only [List.foldl_cons, dpdEdgeStep]
    exact ih (dampStep c d e) _ _ _ _

/-- With `sigma = 0` the DPD loop makes no draw: the stochastic slot of the
accumulator is never written. -/
theorem foldl_dpd_stoch_sigma_zero {nV nE nF nHE : ℕ}
    (c : SysCore nV nE nF nHE) (h : c.P.sigma = 0) :
    ∀ (es : List (Fin nV × Fin nV)) (a : DPDAcc nV),
      (es.foldl (dpdEdgeStep c) a).stochastic = a.stochastic := by
  intro es
  induction es with
  | nil => intro a; rfl
  | cons e es ih =>
    intro a
    simp only [List.foldl_cons]
    rw [ih]
    simp [dpdEdgeStep, stochStep, h]

/-- With `gamma = 0` the damping update is skipped on every edge. -/
theorem foldl_dpd_damping_gamma_zero {nV nE nF nHE : ℕ}
    (c : SysCore nV nE nF nHE) (h : c.P.gamma = 0) :
    ∀ (es : List (Fin nV × Fin nV)) (a : DPDAcc nV),
      (es.foldl (dpdEdgeStep c) a).damping = a.damping := by
  intro es
  induction es with
  | nil => intro a; rfl
  | cons e es ih =>
    intro a
    simp only [List.foldl_cons]
    rw [ih]
    simp [dpdEdgeStep, dampStep, h]

/-- Pointwise description of the stochastic update of one edge when a draw is
made: `+noise·d` at the first endpoint, `-noise·d` at the second, nothing
elsewhere (the two cancel if the endpoints coincide). -/
theorem stochStep_apply {nV nE nF nHE : ℕ} (c : SysCore nV nE nF nHE)
    (st : Fin nV → Vec3) (k : ℕ) (e : Fin nV × Fin nV)
    (h : c.P.sigma ≠ 0) :
    stochStep c st k e = fun w =>
      st w +
        (if w = e.1 then
          c.stream k • vnormalize (c.positions e.1 - c.positions e.2) else 0) -
        (if w = e.2 then
          c.stream k • vnormalize (c.positions e.1 - c.positions e.2) else 0) := by
  funext w
  simp only [stochStep, if_pos h, Function.update_apply]
  split_ifs <;> simp_all

/-- One edge iteration preserves the total (summed over all vertices)
stochastic force. -/
theorem stochStep_sum {nV nE nF nHE : ℕ} (c : SysCore nV nE nF nHE)
    (st : Fin nV → Vec3) (k : ℕ) (e : Fin nV × Fin nV) :
    (Finset.univ.sum fun w => stochStep c st k e w) =
      Finset.univ.sum fun w => st w := by
  by_cases h : c.P.sigma = 0
  · simp [stochStep, h]
  · rw [stochStep_apply c st k e h]
    simp [Finset.sum_add_distrib, Finset.sum_sub_distrib, Finset.sum_ite_eq']

/-- The whole DPD loop preserves the total stochastic force. -/
theorem foldl_dpd_stoch_sum {nV nE nF nHE : ℕ} (c : SysCore nV nE nF nHE) :
    ∀ (es : List (Fin nV × Fin nV)) (a : DPDAcc nV),
      (Finset.univ.sum fun w => (es.foldl (dpdEdgeStep c) a).stochastic w) =
        Finset.univ.sum fun w => a.stochastic w := by
  intro es
  induction es with
  | nil => intro a; rfl
  | cons e es ih =>
    intro a
    simp only [List.foldl_cons]
    rw [ih]
    exact stochStep_sum c a.stochastic a.k e

theorem vdot_sub_left (a b c : Vec3) : vdot (a - b) c = vdot a c - vdot b c := by
  simp only [vdot, Prod.fst_sub, Prod.snd_sub]
  ring

theorem vdot_smul_left (r : ℝ) (a b : Vec3) :
    vdot (r • a) b = r * vdot a b := by
  simp only [vdot, Prod.smul_fst, Prod.smul_snd, smul_eq_mul]
  ring

/-- Claim C3: in `computeDPDForces`, for every edge and every random draw, the
stochastic contributions added to the two endpoint vertices sum to the zero
vector; consequently the total stochastic force over all vertices is the zero
vector — the stochastic DPD force conserves total momentum. -/
theorem dpd_stochastic_conserves_momentum :
    (∀ (nV nE nF nHE : ℕ) (c : SysCore nV nE nF nHE) (st : Fin nV → Vec3)
        (k : ℕ) (e : Fin nV × Fin nV),
        (stochStep c st k e e.1 - st e.1) + (stochStep c st k e e.2 - st e.2)
          = 0) ∧
    ∀ (nV nE nF nHE : ℕ) (s : System nV nE nF nHE),
      (Finset.univ.sum fun v => (computeDPDForces s).forces.stochasticForce v)
        = 0 := by
  constructor
  · intro nV nE nF nHE c st k e
    by_cases hs : c.P.sigma = 0
    · simp [stochStep, hs]
    · rw [stochStep_apply c st k e hs]
      by_cases h12 : e.1 = e.2
      · simp [h12]
      · simp [h12, Ne.symm h12]
  · intro nV nE nF nHE s
    have h := foldl_dpd_stoch_sum s.core s.core.edgeList
      ⟨fun _ => 0, fun _ => 0, s.rngIndex⟩
    simp only [computeDPDForces_forces, dpdAccOf]
    simpa using h

/-- Claim C8: the spontaneous-curvature bending force of
`computeBendingPressure` vanishes identically whenever the bending modulus
`Kb` is zero, and whenever the mean-curvature field equals the
spontaneous-curvature field at every vertex (both the Laplacian term and the
cubic curvature product term vanish). -/
theorem bending_pressure_vanishes {nV nE nF nHE : ℕ}
    (s : System nV nE nF nHE)
    (h : s.core.P.Kb = 0 ∨ s.core.H = s.core.H0v) :
    ∀ v, (computeBendingPressure s).forces.bendingPressure v = 0 := by
  intro v
  simp only [computeBendingPressure_forces]
  show bendingField s.core v = 0
  rcases h with h | h
  · simp [bendingField, h]
  · simp [bendingField, h, sub_self, Matrix.mulVec_zero]

/-- Claim C10: after `computeRegularizationForce` the stored force is purely
tangential — its component along the (unit) vertex normal is zero, the normal
component having been projected out — and the accumulation loop adds nothing
at boundary vertices. -/
theorem regularization_force_tangential {nV nE nF nHE : ℕ}
    (s : System nV nE nF nHE) (v : Fin nV)
    (h : vdot (s.core.vertexNormals v) (s.core.vertexNormals v) = 1) :
    vdot ((computeRegularizationForce s).forces.regularizationForce v)
        (s.core.vertexNormals v) = 0 ∧
      (s.core.isBoundaryV v = true →
        regAccum s.core s.forces.regularizationForce v =
          s.forces.regularizationForce v) := by
  constructor
  · simp only [computeRegularizationForce_forces]
    show vdot (regForceResult s.core s.forces.regularizationForce v)
      (s.core.vertexNormals v) = 0
    rw [regForceResult, vdot_sub_left, vdot_smul_left, h]
    ring
  · intro hb
    simp [regAccum, hb]

/-- Claim C2: after `computeAllForces`, every term whose coefficient (or mode
flag) is inactive has its dedicated slot identically zero: all slots are
zeroed first and only active terms are recomputed, so no stale values survive
a configuration change. -/
theorem computeAllForces_zero_coefficients {nV nE nF nHE : ℕ}
    (s : System nV nE nF nHE) :
    (s.core.P.Kb = 0 →
      (computeAllForces s).forces.bendingPressure = fun _ => 0) ∧
    (s.core.P.Kv = 0 → (computeAllForces s).forces.insidePressure = 0) ∧
    (s.core.P.Ksg = 0 →
      (computeAllForces s).forces.capillaryPressure = fun _ => 0) ∧
    (s.core.P.eta = 0 →
      (computeAllForces s).forces.lineTensionPressure = fun _ => 0) ∧
    (s.core.P.Kse = 0 ∧ s.core.P.Ksl = 0 ∧ s.core.P.Kst = 0 →
      (computeAllForces s).forces.regularizationForce = fun _ => 0) ∧
    (s.core.P.gamma = 0 →
      (computeAllForces s).forces.dampingForce = fun _ => 0) ∧
    (s.core.P.sigma = 0 →
      (computeAllForces s).forces.stochasticForce = fun _ => 0) ∧
    (s.core.isProtein = false →
      (computeAllForces s).forces.chemicalPotential = fun _ => 0) ∧
    (s.core.P.Kf = 0 →
      (computeAllForces s).forces.externalPressure = fun _ => 0) := by
  refine ⟨?_, ?_, ?_, ?_, ?_, ?_, ?_, ?_, ?_⟩
  · intro h
    rw [computeAllForces_bendingPressure]
    simp [h]
  · intro h
    rw [computeAllForces_insidePressure]
    simp [h]
  · intro h
    rw [computeAllForces_capillaryPressure]
    simp [h]
  · intro h
    rw [computeAllForces_lineTensionPressure]
    simp [h]
  · intro h
    rw [computeAllForces_regularizationForce]
    simp [h.1, h.2.1, h.2.2]
  · intro h
    rw [computeAllForces_dampingForce]
    split_ifs with hc
    · exact foldl_dpd_damping_gamma_zero s.core h s.core.edgeList _
    · rfl
  · intro h
    rw [computeAllForces_stochasticForce]
    split_ifs with hc
    · exact foldl_dpd_stoch_sigma_zero s.core h s.core.edgeList _
    · rfl
  · intro h
    rw [computeAllForces_chemicalPotential]
    simp [h]
  · intro h
    rw [computeAllForces_externalPressure]
    simp [h]

/-- Claim C1 (amended): calling `computeAllForces` twice with no intervening
state change reproduces the bending, inside, capillary, line-tension,
external, regularization and damping fields and the chemical potential
exactly; the stochastic field is also reproduced whenever `sigma = 0`. (With
`sigma ≠ 0` each call consumes fresh draws from the random stream, so the
stochastic field generally differs between the two calls.) -/
theorem computeAllForces_repeatable {nV nE nF nHE : ℕ}
    (s : System nV nE nF nHE) :
    ((computeAllForces (computeAllForces s)).forces.bendingPressure =
        (computeAllForces s).forces.bendingPressure) ∧
    ((computeAllForces (computeAllForces s)).forces.insidePressure =
        (computeAllForces s).forces.insidePressure) ∧
    ((computeAllForces (computeAllForces s)).forces.capillaryPressure =
        (computeAllForces s).forces.capillaryPressure) ∧
    ((computeAllForces (computeAllForces s)).forces.lineTensionPressure =
        (computeAllForces s).forces.lineTensionPressure) ∧
    ((computeAllForces (computeAllForces s)).forces.externalPressure =
        (computeAllForces s).forces.externalPressure) ∧
    ((computeAllForces (computeAllForces s)).forces.regularizationForce =
        (computeAllForces s).forces.regularizationForce) ∧
    ((computeAllForces (computeAllForces s)).forces.dampingForce =
        (computeAllForces s).forces.dampingForce) ∧
    ((computeAllForces (computeAllForces s)).forces.chemicalPotential =
        (computeAllForces s).forces.chemicalPotential) ∧
    (s.core.P.sigma = 0 →
      (computeAllForces (computeAllForces s)).forces.stochasticForce =
        (computeAllForces s).forces.stochasticForce) := by
  refine ⟨?_, ?_, ?_, ?_, ?_, ?_, ?_, ?_, ?_⟩
  · simp only [computeAllForces_bendingPressure, computeAllForces_core]
  · simp only [computeAllForces_insidePressure, computeAllForces_core]
  · simp only [computeAllForces_capillaryPressure, computeAllForces_core]
  · simp only [computeAllForces_lineTensionPressure, computeAllForces_core]
  · simp only [computeAllForces_externalPressure, computeAllForces_core]
  · simp only [computeAllForces_regularizationForce, computeAllForces_core]
  · simp only [computeAllForces_dampingForce, computeAllForces_core]
    split_ifs with hc
    · exact foldl_dpd_damping s.core s.core.edgeList _ _ _ _ _
    · rfl
  · simp only [computeAllForces_chemicalPotential, computeAllForces_core]
  · intro h
    simp only [computeAllForces_stochasticForce, computeAllForces_core]
    split_ifs with hc
    · rw [dpdAccOf, dpdAccOf, foldl_dpd_stoch_sigma_zero s.core h,
        foldl_dpd_stoch_sigma_zero s.core h]
    · rfl

/-- All-zero parameter record (every force term inactive). -/
def zeroParams : Params :=
  { Kb := 0, Ksg := 0, Kv := 0, eta := 0, Kse := 0, Ksl := 0, Kst := 0
    gamma := 0, sigma := 0, Kf := 0, Bc := 0, epsilon := 0, H0 := 0
    conc := 0, height := 0, lambdaSG := 0, lambdaV := 0, Vt := 0, cam := 0 }

/-- A minimal concrete system: one vertex, no edges or faces, all coefficients
zero, unit vertex normal `(0,0,1)`. -/
def trivCore : SysCore 1 0 0 0 :=
  { P := zeroParams
    H := fun _ => 0, H0v := fun _ => 0, K := fun _ => 0
    proteinDensity := fun _ => 0, geodesicDistanceFromPtInd := fun _ => 0
    Minv := 0, L := 0, Dmat := 0
    hodge1 := Fin.elim0, hodge1Inverse := Fin.elim0
    edgeDihedralAngles := Fin.elim0, edgeLengths := Fin.elim0
    lineTension := Fin.elim0, targetLcr := Fin.elim0
    targetEdgeLengths := Fin.elim0
    faceNormals := Fin.elim0, faceAreas := Fin.elim0
    targetFaceAreas := Fin.elim0
    positions := fun _ => 0, vel := fun _ => 0
    vertexNormals := fun _ => (0, 0, 1)
    next := Fin.elim0, twin := Fin.elim0, hvertex := Fin.elim0
    hedge := Fin.elim0, hface := Fin.elim0
    outgoing := fun _ => [], isBoundaryV := fun _ => false
    edgeHe := Fin.elim0, theVertex := 0
    hasBoundary := false, isReducedVolume := false
    isProtein := false, isEdgeFlip := false
    surfaceArea := 0, targetSurfaceArea := 1, volume := 1, refVolume := 1
    stream := fun _ => 0 }

/-- Empty force slots. -/
def blankForces (nV : ℕ) : Forces nV :=
  { bendingPressure := fun _ => 0, capillaryPressure := fun _ => 0
    lineTensionPressure := fun _ => 0, externalPressure := fun _ => 0
    regularizationForce := fun _ => 0, dampingForce := fun _ => 0
    stochasticForce := fun _ => 0, chemicalPotential := fun _ => 0
    insidePressure := 0, surfaceTension := 0 }

/-- The minimal concrete system state. -/
def trivSys : System 1 0 0 0 := ⟨trivCore, blankForces 1, 0⟩

/-- Parameters with only the DPD noise strength active. -/
def cexParams : Params := { zeroParams with sigma := 1 }

/-- Concrete system with two vertices joined by one edge of unit direction
`(1,0,0)`, active DPD noise (`sigma = 1`), and a nonconstant random stream
(`1, 2, 3, …`). -/
noncomputable def cexCore : SysCore 2 1 1 2 :=
  { P := cexParams
    H := fun _ => 0, H0v := fun _ => 0, K := fun _ => 0
    proteinDensity := fun _ => 0, geodesicDistanceFromPtInd := fun _ => 0
    Minv := 0, L := 0, Dmat := 0
    hodge1 := fun _ => 1, hodge1Inverse := fun _ => 1
    edgeDihedralAngles := fun _ => 0, edgeLengths := fun _ => 1
    lineTension := fun _ => 0, targetLcr := fun _ => 1
    targetEdgeLengths := fun _ => 1
    faceNormals := fun _ => (0, 0, 1), faceAreas := fun _ => 0
    targetFaceAreas := fun _ => 0
    positions := fun v => if v = 0 then ((1 : ℝ), (0 : ℝ), (0 : ℝ)) else 0
    vel := fun _ => 0
    vertexNormals := fun _ => (0, 0, 1)
    next := fun h => if h = 0 then 1 else 0
    twin := fun h => if h = 0 then 1 else 0
    hvertex := fun h => if h = 0 then 0 else 1
    hedge := fun _ => 0, hface := fun _ => 0
    outgoing := fun _ => [], isBoundaryV := fun _ => false
    edgeHe := fun _ => 0, theVertex := 0
    hasBoundary := false, isReducedVolume := false
    isProtein := false, isEdgeFlip := false
    surfaceArea := 0, targetSurfaceArea := 1, volume := 1, refVolume := 1
    stream := fun k => (k : ℝ) + 1 }

/-- The concrete two-vertex system used to exhibit the stochastic-force
discrepancy between two successive aggregate force evaluations. -/
noncomputable def cexSys : System 2 1 1 2 := ⟨cexCore, blankForces 2, 0⟩

theorem cexCore_edgeList : cexCore.edgeList = [((0 : Fin 2), (1 : Fin 2))] := by
  simp [SysCore.edgeList, cexCore, List.finRange]

theorem vnormalize_unit_x : vnormalize ((1 : ℝ), (0 : ℝ × ℝ)) =
    ((1 : ℝ), (0 : ℝ × ℝ)) := by
  have h : vdot ((1 : ℝ), (0 : ℝ × ℝ)) ((1 : ℝ), (0 : ℝ × ℝ)) = 1 := by
    norm_num [vdot]
  rw [vnormalize, h, Real.sqrt_one, inv_one, one_smul]

/-- Stochastic slot after the DPD loop of `cexSys` starting at cursor `k`:
the first vertex receives `(k+1) • (1,0,0)`. -/
theorem cex_dpd_stochastic (k : ℕ) :
    (dpdAccOf cexCore k).stochastic 0 = (((k : ℝ) + 1, (0 : ℝ × ℝ)) : Vec3) := by
  rw [dpdAccOf, cexCore_edgeList]
  simp only [List.foldl_cons, List.foldl_nil, dpdEdgeStep]
  rw [stochStep_apply cexCore _ k _ (by norm_num [cexCore, cexParams])]
  norm_num [cexCore]
  rw [vnormalize_unit_x]
  simp

/-- The DPD loop of `cexSys` advances the random-stream cursor by one. -/
theorem cex_dpd_k (k : ℕ) : (dpdAccOf cexCore k).k = k + 1 := by
  rw [dpdAccOf, cexCore_edgeList]
  simp only [List.foldl_cons, List.foldl_nil, dpdEdgeStep]
  norm_num [cexCore, cexParams]

theorem cexSys_core : cexSys.core = cexCore := rfl

theorem cexSys_rngIndex : cexSys.rngIndex = 0 := rfl

/-- Claim C1 (counterexample): on `cexSys` (one edge, `sigma = 1`, all other
coefficients zero) the stochastic force at vertex 0 after a second consecutive
`computeAllForces` differs from the one after the first call by a vector whose
squared norm exceeds `(1e-12)²` — the per-vertex fields of the two calls are
not identical within a `1e-12` norm tolerance, because the second call
consumes fresh random draws. -/
theorem computeAllForces_stochastic_second_call_differs :
    (1e-12 : ℝ) ^ 2 <
      vdot
        ((computeAllForces (computeAllForces cexSys)).forces.stochasticForce 0 -
          (computeAllForces cexSys).forces.stochasticForce 0)
        ((computeAllForces (computeAllForces cexSys)).forces.stochasticForce 0 -
          (computeAllForces cexSys).forces.stochasticForce 0) := by
  have hcond : cexSys.core.P.gamma ≠ 0 ∨ cexSys.core.P.sigma ≠ 0 :=
    Or.inr (by norm_num [cexSys, cexCore, cexParams, zeroParams])
  have h1 : (computeAllForces cexSys).forces.stochasticForce 0 =
      ((1 : ℝ), (0 : ℝ × ℝ)) := by
    rw [computeAllForces_stochasticForce, if_pos hcond, cexSys_core,
      cexSys_rngIndex]
    have h0 := cex_dpd_stochastic 0
    norm_num at h0
    exact h0
  have h2 : (computeAllForces (computeAllForces cexSys)).forces.stochasticForce 0 =
      ((2 : ℝ), (0 : ℝ × ℝ)) := by
    rw [computeAllForces_stochasticForce, computeAllForces_core, if_pos hcond,
      computeAllForces_rngIndex, if_pos hcond, cexSys_core, cexSys_rngIndex,
      cex_dpd_k 0]
    have h0 := cex_dpd_stochastic 1
    norm_num at h0
    exact h0
  rw [h1, h2]
  norm_num [vdot]

/-- Witness for claim C1 (amended) at the concrete system `trivSys`
(`sigma = 0`): both the deterministic bending slot and the stochastic slot are
reproduced by a second aggregate evaluation. -/
theorem computeAllForces_repeatable_witness :
    trivSys.core.P.sigma = 0 ∧
    (computeAllForces (computeAllForces trivSys)).forces.bendingPressure =
      (computeAllForces trivSys).forces.bendingPressure ∧
    (computeAllForces (computeAllForces trivSys)).forces.stochasticForce =
      (computeAllForces trivSys).forces.stochasticForce :=
  ⟨rfl, (computeAllForces_repeatable trivSys).1,
    (computeAllForces_repeatable trivSys).2.2.2.2.2.2.2.2 rfl⟩

/-- Witness for claim C2 at the concrete system `trivSys`: with `Kb = 0` and
`sigma = 0` the bending and stochastic slots are identically zero after
aggregate evaluation. -/
theorem computeAllForces_zero_coefficients_witness :
    trivSys.core.P.Kb = 0 ∧ trivSys.core.P.sigma = 0 ∧
    (computeAllForces trivSys).forces.bendingPressure = (fun _ => 0) ∧
    (computeAllForces trivSys).forces.stochasticForce = fun _ => 0 :=
  ⟨rfl, rfl, (computeAllForces_zero_coefficients trivSys).1 rfl,
    (computeAllForces_zero_coefficients trivSys).2.2.2.2.2.2.1 rfl⟩

/-- Witness for claim C8 at the concrete system `trivSys` (`Kb = 0`). -/
theorem bending_pressure_vanishes_witness :
    (trivSys.core.P.Kb = 0 ∨ trivSys.core.H = trivSys.core.H0v) ∧
    ∀ v, (computeBendingPressure trivSys).forces.bendingPressure v = 0 :=
  ⟨Or.inl rfl, bending_pressure_vanishes trivSys (Or.inl rfl)⟩

/-- Witness for claim C10 at the concrete system `trivSys`, whose vertex
normal `(0,0,1)` is a unit vector. -/
theorem regularization_force_tangential_witness :
    vdot (trivSys.core.vertexNormals 0) (trivSys.core.vertexNormals 0) = 1 ∧
    vdot ((computeRegularizationForce trivSys).forces.regularizationForce 0)
      (trivSys.core.vertexNormals 0) = 0 := by
  have h : vdot (trivSys.core.vertexNormals 0)
      (trivSys.core.vertexNormals 0) = 1 := by
    norm_num [trivSys, trivCore, vdot]
  exact ⟨h, (regularization_force_tangential trivSys 0 h).1⟩

/-- State read and written by the termination logic of `Euler::status`
(src/src/euler.cpp): the `L1ErrorNorm` field holds the error norm freshly
recomputed by the preceding `updateVertexPositions`/`getForces` part of
`status`; the two flags are the integrator flags. -/
structure EulerStatusState where
  time : ℚ
  total_time : ℚ
  tol : ℚ
  L1ErrorNorm : ℚ
  EXIT : Bool
  SUCCESS : Bool

/-- The two threshold checks of `Euler::status`: `EXIT` when the error norm is
under tolerance; `EXIT` and `SUCCESS = false` when the simulated time exceeds
`total_time`. (The checks read only fields the earlier check does not
write.) -/
def eulerStatusFlags (s : EulerStatusState) : EulerStatusState :=
  let s1 := if s.L1ErrorNorm < s.tol then { s with EXIT := true } else s
  if s.time > s.total_time then { s1 with EXIT := true, SUCCESS := false }
  else s1

/-- State read and written by `VelocityVerlet::status`
(src/src/solver/integrator/velocity_verlet.cpp): error norms, time budget, the
outcomes of the two `isfinite` checks (float artifacts, idealised as supplied
booleans), the energy-cap configuration and the freshly recomputed energies,
and the integrator flags. -/
structure VVStatusState where
  mechErrorNorm : ℚ
  chemErrorNorm : ℚ
  tolerance : ℚ
  time : ℚ
  totalTime : ℚ
  timeStepFinite : Bool
  systemFinite : Bool
  isCapEnergy : Bool
  totalEnergy : ℚ
  proteinInteriorPenalty : ℚ
  initialTotalEnergy : ℚ
  EXIT : Bool
  SUCCESS : Bool

/-- The four checks of `VelocityVerlet::status`, in source order: tolerance
(`EXIT` only), time budget (`EXIT` only — `SUCCESS` is not touched),
finiteness (`EXIT` and `SUCCESS = false`), and the 1.05× energy cap (`EXIT`
and `SUCCESS = false`, active only when `isCapEnergy`). Each check reads only
fields no earlier check writes. -/
def vvStatus (s : VVStatusState) : VVStatusState :=
  let s1 := if s.mechErrorNorm < s.tolerance ∧ s.chemErrorNorm < s.tolerance
    then { s with EXIT := true } else s
  let s2 := if s.time > s.totalTime then { s1 with EXIT := true } else s1
  let s3 := if !s.timeStepFinite || !s.systemFinite then
      { s2 with EXIT := true, SUCCESS := false }
    else s2
  if s.isCapEnergy then
    if s.totalEnergy - s.proteinInteriorPenalty >
        1.05 * s.initialTotalEnergy then
      { s3 with EXIT := true, SUCCESS := false }
    else s3
  else s3

/-- Claim C6: with the energy cap enabled, whenever `VelocityVerlet::status`
finds the total energy minus the protein interior-penalty term above 1.05
times the initial total energy, the run is aborted: `EXIT` is set and
`SUCCESS` is cleared. -/
theorem vv_energy_cap_aborts (s : VVStatusState) (hcap : s.isCapEnergy = true)
    (h : s.totalEnergy - s.proteinInteriorPenalty >
      1.05 * s.initialTotalEnergy) :
    (vvStatus s).EXIT = true ∧ (vvStatus s).SUCCESS = false := by
  simp [vvStatus, hcap, h]

/-- Concrete status state with the energy cap tripped. -/
def capVV : VVStatusState :=
  { mechErrorNorm := 1, chemErrorNorm := 1, tolerance := 0, time := 0
    totalTime := 1, timeStepFinite := true, systemFinite := true
    isCapEnergy := true, totalEnergy := 3, proteinInteriorPenalty := 0
    initialTotalEnergy := 1, EXIT := false, SUCCESS := true }

/-- Witness for claim C6 at the concrete state `capVV`. -/
theorem vv_energy_cap_aborts_witness :
    capVV.isCapEnergy = true ∧
    capVV.totalEnergy - capVV.proteinInteriorPenalty >
      1.05 * capVV.initialTotalEnergy ∧
    (vvStatus capVV).EXIT = true ∧ (vvStatus capVV).SUCCESS = false :=
  ⟨rfl, by norm_num [capVV],
    (vv_energy_cap_aborts capVV rfl (by norm_num [capVV])).1,
    (vv_energy_cap_aborts capVV rfl (by norm_num [capVV])).2⟩

/-- Concrete status state: time budget exhausted, error norms above tolerance,
everything finite, energy cap off. -/
def timeoutVV : VVStatusState :=
  { mechErrorNorm := 1, chemErrorNorm := 1, tolerance := 0, time := 2
    totalTime := 1, timeStepFinite := true, systemFinite := true
    isCapEnergy := false, totalEnergy := 0, proteinInteriorPenalty := 0
    initialTotalEnergy := 0, EXIT := false, SUCCESS := true }

/-- Claim C4 (counterexample): on `timeoutVV` — simulated time past
`totalTime`, error norms not under tolerance — `VelocityVerlet::status` exits
with `SUCCESS` still `true`: the Velocity-Verlet variant does not reach the
claimed failed terminal state EXIT∧¬SUCCESS on time exhaustion. -/
theorem vv_timeout_keeps_success :
    (vvStatus timeoutVV).EXIT = true ∧ (vvStatus timeoutVV).SUCCESS = true := by
  decide

/-- Claim C4 (amended): on time-budget exhaustion, the Euler variant sets the
failed terminal state (`EXIT` and `SUCCESS = false`), while the
Velocity-Verlet variant (state finite, energy cap not tripping) only sets
`EXIT` and leaves `SUCCESS` unchanged. Both report rather than throw. -/
theorem time_exhaustion_flags :
    (∀ s : EulerStatusState, s.time > s.total_time →
      (eulerStatusFlags s).EXIT = true ∧
        (eulerStatusFlags s).SUCCESS = false) ∧
    ∀ t : VVStatusState, t.time > t.totalTime → t.timeStepFinite = true →
      t.systemFinite = true → t.isCapEnergy = false →
      (vvStatus t).EXIT = true ∧ (vvStatus t).SUCCESS = t.SUCCESS := by
  constructor
  · intro s h
    simp [eulerStatusFlags, h]
  · intro t h h1 h2 h3
    constructor
    · simp [vvStatus, h, h1, h2, h3]
    · simp only [vvStatus, h, h1, h2, h3]
      simp
      split_ifs <;> rfl

/-- Concrete Euler status state with the time budget exhausted. -/
def timeoutEuler : EulerStatusState :=
  { time := 2, total_time := 1, tol := 0, L1ErrorNorm := 1
    EXIT := false, SUCCESS := true }

/-- Witness for claim C4 (amended) at `timeoutEuler` and `timeoutVV`. -/
theorem time_exhaustion_flags_witness :
    timeoutEuler.time > timeoutEuler.total_time ∧
    timeoutVV.time > timeoutVV.totalTime ∧
    ((eulerStatusFlags timeoutEuler).EXIT = true ∧
      (eulerStatusFlags timeoutEuler).SUCCESS = false) ∧
    (vvStatus timeoutVV).EXIT = true ∧
      (vvStatus timeoutVV).SUCCESS = timeoutVV.SUCCESS :=
  ⟨by norm_num [timeoutEuler], by norm_num [timeoutVV],
    time_exhaustion_flags.1 timeoutEuler (by norm_num [timeoutEuler]),
    time_exhaustion_flags.2 timeoutVV (by norm_num [timeoutVV]) rfl rfl rfl⟩

/-- Eigen `minCoeff` over a list of edge lengths (the source evaluates it on
the nonempty edge-length vector of the mesh). -/
def minCoeffQ : List ℚ → ℚ
  | [] => 0
  | x :: xs => xs.foldl min x

/-- State read and written by the stepping part of `Euler::march`
(src/src/euler.cpp): current edge lengths, the construction-time constant
`dt_size2_ratio` (here `dtSize2Coeff`), the time step `dt`, positions,
velocities, simulated time, and the adaptive-stepping flag. -/
structure EulerMarchState where
  edgeLengths : List ℚ
  /-- the `dt_size2_ratio` member of `Integrator` -/
  dtSize2Coeff : ℚ
  dt : ℚ
  time : ℚ
  isAdaptiveStep : Bool
  pos : List (ℚ × ℚ × ℚ)
  vel : List (ℚ × ℚ × ℚ)

/-- The adaptive time-step assignment at the top of `Euler::march`: with
adaptive stepping, `dt = dt_size2_ratio * minMeshLength * minMeshLength`
recomputed from the current mesh; otherwise `dt` is left as is. -/
def eulerAdaptiveDt (s : EulerMarchState) : ℚ :=
  if s.isAdaptiveStep then
    s.dtSize2Coeff * minCoeffQ s.edgeLengths * minCoeffQ s.edgeLengths
  else s.dt

/-- `Euler::march` along its explicit (non-backtracking) path: adaptive `dt`
update, then `pos += vel * dt` and `time += dt`. (The backtracking helper and
the vertex-shift/protein sub-steps live outside the included sources.) -/
def eulerMarch (s : EulerMarchState) : EulerMarchState :=
  let dt' := eulerAdaptiveDt s
  { s with
    dt := dt'
    pos := (s.pos.zip s.vel).map fun pv => pv.1 + dt' • pv.2
    time := s.time + dt' }

/-- The `dt_size2_ratio` initialisation of the `Integrator` constructor
(src/include/mem3dg/solver/integrator/integrator.h): the characteristic time
step divided by the squared minimum edge length of the initial mesh. -/
def integratorDtSize2Coeff (characteristicTimeStep : ℚ)
    (edgeLengths0 : List ℚ) : ℚ :=
  characteristicTimeStep / minCoeffQ edgeLengths0 ^ 2

/-- Claim C5: with adaptive stepping enabled, the step size used by
`Euler::march` equals `dt_size2_ratio` times the squared minimum edge length
of the current mesh — hence never exceeds that bound — and the
construction-time `dt_size2_ratio` times the squared initial minimum edge
length recovers the characteristic time step. -/
theorem adaptive_step_bound (s : EulerMarchState)
    (h : s.isAdaptiveStep = true) (cdt : ℚ) (els : List ℚ)
    (hels : minCoeffQ els ≠ 0) :
    (eulerMarch s).dt = s.dtSize2Coeff * minCoeffQ s.edgeLengths ^ 2 ∧
    (eulerMarch s).dt ≤ s.dtSize2Coeff * minCoeffQ s.edgeLengths ^ 2 ∧
    integratorDtSize2Coeff cdt els * minCoeffQ els ^ 2 = cdt := by
  have heq : (eulerMarch s).dt =
      s.dtSize2Coeff * minCoeffQ s.edgeLengths ^ 2 := by
    simp only [eulerMarch, eulerAdaptiveDt, h, if_true]
    ring
  refine ⟨heq, le_of_eq heq, ?_⟩
  rw [integratorDtSize2Coeff]
  field_simp

/-- Concrete adaptive march state (minimum edge length 2). -/
def marchW : EulerMarchState :=
  { edgeLengths := [3, 2], dtSize2Coeff := 5, dt := 7, time := 0
    isAdaptiveStep := true, pos := [], vel := [] }

/-- Witness for claim C5 at the concrete state `marchW` and a concrete
constructor input. -/
theorem adaptive_step_bound_witness :
    marchW.isAdaptiveStep = true ∧ minCoeffQ [2] ≠ 0 ∧
    ((eulerMarch marchW).dt =
        marchW.dtSize2Coeff * minCoeffQ marchW.edgeLengths ^ 2 ∧
      (eulerMarch marchW).dt ≤
        marchW.dtSize2Coeff * minCoeffQ marchW.edgeLengths ^ 2 ∧
      integratorDtSize2Coeff 5 [2] * minCoeffQ [2] ^ 2 = 5) :=
  ⟨rfl, by norm_num [minCoeffQ],
    adaptive_step_bound marchW rfl 5 [2] (by norm_num [minCoeffQ])⟩

/-- The `Parameters::Osmotic` record of the solver
(src/include equivalent of src/src/solver/parameters.cpp): modulus `Kv`,
preferred volume `Vt`, ambient concentration `cam`, volume reservoir `V_res`,
enclosed solute `n`, augmented-Lagrangian multiplier `lambdaV`, and the two
mode flags. -/
structure OsmoticParams where
  Kv : ℚ
  Vt : ℚ
  cam : ℚ
  V_res : ℚ
  n : ℚ
  lambdaV : ℚ
  isPreferredVolume : Bool
  isConstantOsmoticPressure : Bool

/-- The osmotic-pressure update of `System::updateConfigurations`
(src/src/solver/init.cpp): preferred-volume mode
`-(Kv (V - Vt)/Vt/Vt + lambdaV)`; constant-pressure mode `Kv` directly;
otherwise the ideal-gas law `i R T (n/V - cam)` (the physical constants
`mem3dg::constants::i` and `::R` are passed as `iGas`, `Rgas`; their header is
not included under src). -/
def updateOsmoticPressure (iGas Rgas temperature : ℚ) (p : OsmoticParams)
    (volume : ℚ) : ℚ :=
  if p.isPreferredVolume then
    -(p.Kv * (volume - p.Vt) / p.Vt / p.Vt + p.lambdaV)
  else if p.isConstantOsmoticPressure then p.Kv
  else iGas * Rgas * temperature * (p.n / volume - p.cam)

/-- Claim C7: the osmotic pressure is a single global scalar set by exactly
one of three modes: in preferred-volume mode it is proportional to the
deviation of the enclosed volume from the target volume (slope `-Kv/Vt²`)
minus the augmented-Lagrangian multiplier `lambdaV`; in constant-pressure
mode it is `Kv` directly; otherwise it is the ideal-gas law, `n/V` minus the
ambient concentration `cam`, scaled by temperature (and the gas constants). -/
theorem osmotic_pressure_modes (iGas Rgas temperature : ℚ)
    (p : OsmoticParams) (V : ℚ) (hVt : p.Vt ≠ 0) :
    (p.isPreferredVolume = true →
      updateOsmoticPressure iGas Rgas temperature p V =
        -(p.Kv / p.Vt ^ 2) * (V - p.Vt) - p.lambdaV) ∧
    (p.isPreferredVolume = false → p.isConstantOsmoticPressure = true →
      updateOsmoticPressure iGas Rgas temperature p V = p.Kv) ∧
    (p.isPreferredVolume = false → p.isConstantOsmoticPressure = false →
      updateOsmoticPressure iGas Rgas temperature p V =
        iGas * Rgas * temperature * (p.n / V - p.cam)) := by
  refine ⟨?_, ?_, ?_⟩
  · intro h
    simp only [updateOsmoticPressure, h, if_true]
    field_simp
    ring
  · intro h1 h2
    simp [updateOsmoticPressure, h1, h2]
  · intro h1 h2
    simp [updateOsmoticPressure, h1, h2]

/-- Concrete preferred-volume osmotic parameters. -/
def osmoW : OsmoticParams :=
  { Kv := 2, Vt := 3, cam := -1, V_res := 0, n := 1, lambdaV := 5
    isPreferredVolume := true, isConstantOsmoticPressure := false }

/-- Witness for claim C7 at the concrete parameters `osmoW` and volume 4. -/
theorem osmotic_pressure_modes_witness :
    osmoW.Vt ≠ 0 ∧ osmoW.isPreferredVolume = true ∧
    updateOsmoticPressure 1 1 1 osmoW 4 =
      -(osmoW.Kv / osmoW.Vt ^ 2) * (4 - osmoW.Vt) - osmoW.lambdaV :=
  ⟨by norm_num [osmoW], rfl,
    (osmotic_pressure_modes 1 1 1 osmoW 4 (by norm_num [osmoW])).1 rfl⟩

/-- `Parameters::Osmotic::checkParameters` (src/src/solver/parameters.cpp):
validates the osmotic configuration once at initialization, before any
simulation step; `mem3dg_runtime_error` is modelled as an `Except.error`
carrying the source message. -/
def osmoticCheckParameters (p : OsmoticParams) : Except String Unit :=
  if p.isPreferredVolume && !p.isConstantOsmoticPressure then
    if p.cam ≠ -1 then
      Except.error
        "ambient concentration cam has to be -1 for preferred volume parametrized simulation!"
    else Except.ok ()
  else if !p.isPreferredVolume && !p.isConstantOsmoticPressure then
    if p.n = 0 then
      Except.error
        "enclosed solute quantity n can not be 0 for ambient pressure parametrized simulation!"
    else if p.Vt ≠ -1 ∧ p.isConstantOsmoticPressure = false then
      Except.error
        "preferred volume Vt has to be -1 for ambient pressure parametrized simulation!"
    else if p.Kv ≠ 0 ∧ p.isConstantOsmoticPressure = false then
      Except.error
        "Kv has to be 0 for ambient pressure parametrized simulation!"
    else Except.ok ()
  else if !p.isPreferredVolume && p.isConstantOsmoticPressure then
    if p.Vt ≠ -1 ∨ p.V_res ≠ 0 ∨ p.cam ≠ -1 then
      Except.error
        "Vt and cam have to be set to -1 and V_res to be 0 to enable constant omostic pressure! Note Kv is the pressure directly!"
    else Except.ok ()
  else
    Except.error
      "preferred volume and constant osmotic pressure cannot be simultaneously turned on!"

/-- Claim C9: enabling both the preferred-volume mode and the
constant-osmotic-pressure mode is rejected with a fatal configuration error by
`Parameters::Osmotic::checkParameters`; with only one mode enabled and
consistent auxiliary values (`cam`, `Vt`, `V_res`) the check passes without
error. -/
theorem osmotic_mode_exclusivity :
    (∀ p : OsmoticParams, p.isPreferredVolume = true →
      p.isConstantOsmoticPressure = true →
      osmoticCheckParameters p =
        Except.error
          "preferred volume and constant osmotic pressure cannot be simultaneously turned on!") ∧
    (∀ p : OsmoticParams, p.isPreferredVolume = true →
      p.isConstantOsmoticPressure = false → p.cam = -1 →
      osmoticCheckParameters p = Except.ok ()) ∧
    ∀ p : OsmoticParams, p.isPreferredVolume = false →
      p.isConstantOsmoticPressure = true → p.Vt = -1 → p.V_res = 0 →
      p.cam = -1 → osmoticCheckParameters p = Except.ok () := by
  refine ⟨?_, ?_, ?_⟩
  · intro p h1 h2
    simp [osmoticCheckParameters, h1, h2]
  · intro p h1 h2 h3
    simp [osmoticCheckParameters, h1, h2, h3]
  · intro p h1 h2 h3 h4 h5
    simp [osmoticCheckParameters, h1, h2, h3, h4, h5]

/-- Concrete conflicting configuration: both osmotic modes enabled. -/
def osmoBoth : OsmoticParams :=
  { osmoW with isPreferredVolume := true, isConstantOsmoticPressure := true }

/-- Concrete consistent constant-pressure configuration. -/
def osmoConst : OsmoticParams :=
  { Kv := 4, Vt := -1, cam := -1, V_res := 0, n := 1, lambdaV := 0
    isPreferredVolume := false, isConstantOsmoticPressure := true }

/-- Witness for claim C9 at three concrete configurations: the conflicting one
is rejected, the two consistent single-mode ones pass. -/
theorem osmotic_mode_exclusivity_witness :
    osmoticCheckParameters osmoBoth =
      Except.error
        "preferred volume and constant osmotic pressure cannot be simultaneously turned on!" ∧
    osmoticCheckParameters osmoW = Except.ok () ∧
    osmoticCheckParameters osmoConst = Except.ok () :=
  ⟨osmotic_mode_exclusivity.1 osmoBoth rfl rfl,
    osmotic_mode_exclusivity.2.1 osmoW rfl rfl (by norm_num [osmoW]),
    osmotic_mode_exclusivity.2.2 osmoConst rfl rfl (by norm_num [osmoConst])
      (by norm_num [osmoConst]) (by norm_num [osmoConst])⟩

end Mem3DG
